import Mathlib

/-!
Shallow embedding of the AutoEarnX selling bot (`src/bot.py`).

The persistent store is modelled as explicit record state (`DB`), one field per
table created by `init_database`.  Every call to `execute_query` in the source
opens its own connection, runs one statement, commits, and swallows any
exception (returning `None`); we model this by threading a query counter `k`
and an `Oracle : Nat → Bool` saying whether the `k`-th statement of a run
succeeds.  A failed statement leaves the database unchanged (rollback) and
yields `none` to the caller.  Crucially, the `fetch` parameter of `execute_query`
defaults to the value none, in which case the function returns `None` even when the
statement succeeds; call sites that omit `fetch` are modelled by `q_nofetch`.
-/

/-- Row of the `users` table (`user_id BIGINT UNIQUE`, `balance INTEGER`). -/
structure UserRow where
  user_id : Int
  balance : Int
  deriving DecidableEq, Repr

/-- Row of the `coupons` table (`code TEXT UNIQUE`, `type TEXT`, `is_used BOOLEAN`,
`used_by BIGINT`). -/
structure Coupon where
  id : Nat
  code : String
  ctype : String
  is_used : Bool
  used_by : Option Int
  deriving DecidableEq, Repr

/-- Row of the `orders` table (`id TEXT PRIMARY KEY`, `user_id`, `coupon_code`,
`amount`). -/
structure OrderRow where
  id : String
  user_id : Int
  coupon_code : String
  amount : Int
  deriving DecidableEq, Repr

/-- Row of the `pending_orders` table (deposit claims): `id TEXT PRIMARY KEY`,
`user_id`, `amount`, `status` (default pending). -/
structure PendingOrder where
  id : String
  user_id : Int
  amount : Int
  status : String
  deriving DecidableEq, Repr

/-- The database state: one field per table (prices as `(type, price)` pairs;
`coupon_seq` models the `SERIAL` id column of `coupons`). -/
structure DB where
  users : List UserRow
  coupons : List Coupon
  orders : List OrderRow
  pending_orders : List PendingOrder
  prices : List (String × Int)
  coupon_seq : Nat
  deriving DecidableEq, Repr

/-- Store state threaded through a handler run: database contents, the index
`k` of the next `execute_query` statement (consulted by the failure oracle),
and a counter for freshly generated order ids (`uuid.uuid4()` in the source). -/
structure St where
  db : DB
  k : Nat
  seq : Nat
  deriving DecidableEq, Repr

/-- Failure oracle: `o k = true` iff the `k`-th `execute_query` statement of the
run commits; `false` models a store error, which `execute_query` catches,
rolls back, and converts into a `None` result. -/
def Oracle : Type := Nat → Bool

/-- `execute_query` with a data-modifying statement and fetch mode none: on
success the effect commits; on failure the transaction rolls back.  The caller
receives `None` either way, so no result is returned. -/
def q_write (o : Oracle) (s : St) (eff : DB → DB) : St :=
  { s with db := if o s.k then eff s.db else s.db, k := s.k + 1 }

/-- `execute_query` with fetch mode one and a read-only statement: on success the
caller gets the fetched value, on failure `None`.  Reads never change the
database. -/
def q_read {α : Type} (o : Oracle) (s : St) (read : DB → Option α) : Option α × St :=
  ((if o s.k then read s.db else none), { s with k := s.k + 1 })

/-- A `SELECT` issued through `execute_query` *without* a `fetch` argument: the
default is fetch mode none, so the result is `None` even when the statement
succeeds.  Only the statement counter advances. -/
def q_nofetch (_o : Oracle) (s : St) : St :=
  { s with k := s.k + 1 }

/-- `UPDATE users SET balance = balance + d WHERE user_id = uid` (the source
uses `balance - total` for the debit, modelled as adding `-total`). -/
def upd_balance (uid : Int) (d : Int) (db : DB) : DB :=
  { db with users := db.users.map fun u =>
      if u.user_id = uid then { u with balance := u.balance + d } else u }

/-- `SELECT balance FROM users WHERE user_id = uid` (`fetchone`). -/
def get_balance (uid : Int) (db : DB) : Option Int :=
  (db.users.find? fun u => u.user_id == uid).map (·.balance)

/-- `SELECT COUNT(*) FROM coupons WHERE type = t AND is_used = FALSE`.
`t` is the selected coupon field of the session, possibly `None`; SQL `type =
NULL` matches no row. -/
def count_unused (t : Option String) (db : DB) : Nat :=
  (db.coupons.filter fun c => !c.is_used && some c.ctype == t).length

/-- `SELECT price FROM prices WHERE type = t` (`fetchone`). -/
def get_price (t : Option String) (db : DB) : Option Int :=
  (db.prices.find? fun p => some p.1 == t).map (·.2)

/-- `UPDATE coupons SET is_used = TRUE, used_by = uid WHERE id = cid`. -/
def mark_used (uid : Int) (cid : Nat) (db : DB) : DB :=
  { db with coupons := db.coupons.map fun c =>
      if c.id = cid then { c with is_used := true, used_by := some uid } else c }

/-- `INSERT INTO orders (id, user_id, coupon_code, amount)`.  `orders.id` is the
`PRIMARY KEY`, so inserting a duplicate id raises a constraint violation, which
`execute_query` swallows after rollback: the table is unchanged. -/
def insert_order (oid : String) (uid : Int) (code : String) (amount : Int) (db : DB) : DB :=
  if db.orders.any fun r => r.id == oid then db
  else { db with orders := db.orders ++ [⟨oid, uid, code, amount⟩] }

/-- `INSERT INTO coupons (code, type, is_used)`.  `code` is `UNIQUE NOT NULL`
and `type` is `NOT NULL`; a violated constraint rolls the statement back. -/
def insert_coupon (code : String) (t : Option String) (db : DB) : DB :=
  match t with
  | none => db
  | some ty =>
      if db.coupons.any fun c => c.code == code then db
      else { db with
               coupons := db.coupons ++ [⟨db.coupon_seq, code, ty, false, none⟩],
               coupon_seq := db.coupon_seq + 1 }

/-- `DELETE FROM coupons WHERE id = cid`. -/
def delete_coupon (cid : Nat) (db : DB) : DB :=
  { db with coupons := db.coupons.filter fun c => !(c.id == cid) }

/-- `UPDATE pending_orders SET status = st WHERE id = oid`. -/
def set_claim_status (oid : String) (status : String) (db : DB) : DB :=
  { db with pending_orders := db.pending_orders.map fun p =>
      if p.id = oid then { p with status := status } else p }

/-- `UPDATE prices SET price = v WHERE type = t`. -/
def set_price (t : Option String) (v : Int) (db : DB) : DB :=
  { db with prices := db.prices.map fun p =>
      if some p.1 = t then (p.1, v) else p }

/-- Fresh order id, standing in for `str(uuid.uuid4())[:8]`. -/
def new_id (n : Nat) : String :=
  "oid" ++ toString n

/-- Decimal digit run: `some` of its value when the characters are one or more
decimal digits, `none` otherwise. -/
def parse_decimal_go : List Char → Nat → Option Nat
  | [], acc => some acc
  | c :: cs, acc =>
      if c.isDigit then parse_decimal_go cs (10 * acc + (c.toNat - 48)) else none

/-- Non-empty all-digit character list to its decimal value. -/
def parse_decimal : List Char → Option Nat
  | [] => none
  | c :: cs => parse_decimal_go (c :: cs) 0

/-- The Python `int(text)` conversion used by the numeric flow steps: optional
surrounding whitespace, an optional sign, then one or more decimal digits;
anything else raises `ValueError`, modelled as `none`. -/
def py_int (s : String) : Option Int :=
  let cs := ((s.toList.dropWhile Char.isWhitespace).reverse.dropWhile
    Char.isWhitespace).reverse
  match cs with
  | '-' :: rest => (parse_decimal rest).map fun n => -(n : Int)
  | '+' :: rest => (parse_decimal rest).map fun n => (n : Int)
  | rest => (parse_decimal rest).map fun n => (n : Int)

/-- The per-user `context.user_data` field bag: one field per key the source
reads or writes. -/
structure UserData where
  awaiting_quantity : Bool := false
  selected_coupon : Option String := none
  awaiting_amount : Bool := false
  awaiting_upi_amount : Bool := false
  payment_method : Option String := none
  payment_amount : Option Int := none
  awaiting_giftcard : Bool := false
  giftcard_code : Option String := none
  awaiting_payer_name : Bool := false
  payer_name : Option String := none
  awaiting_screenshot : Bool := false
  awaiting_upi_screenshot : Bool := false
  awaiting_coupons : Bool := false
  awaiting_remove_quantity : Bool := false
  awaiting_price : Bool := false
  admin_coupon_type : Option String := none
  admin_action : Option String := none
  awaiting_qr : Bool := false
  order_id : Option String := none
  deriving DecidableEq, Repr

/-- Outbound messages, reduced to the data they carry. -/
inductive Reply where
  | invalidNumber
  | positiveNumber
  | notEnoughStock (available : Nat)
  | notEnoughBalance (available needed : Int)
  | refundNotice
  | purchaseSuccess (ctype : Option String) (qty total newBalance : Int) (codes : List String)
  | paymentMenu
  | termsMenu
  | balanceInfo (b : Int)
  | ordersInfo (os : List OrderRow)
  | noOrders
  | supportInfo
  | disclaimerInfo
  | adminPanel
  | selectTypeToAdd
  | selectTypeToRemove
  | selectTypeForPrice
  | stockInfo (a b c d : Nat)
  | askQr
  | lastBuyers (os : List OrderRow)
  | noBuyers
  | backToUser
  | couponsAdded (n : Nat)
  | removedOk (n : Int)
  | notEnoughCoupons (n : Nat)
  | priceChanged (t : Option String) (p : Int)
  | amountTooSmall
  | orderSummary (amount : Int)
  | upiRequest (oid : String) (amount : Int)
  | askScreenshot
  | askUpiScreenshot
  | approvedUser (uid : Int) (amount : Int)
  | approvedOperator
  | declinedUser (uid : Int)
  | declinedOperator
  | genericError
  deriving DecidableEq, Repr

/-- Body of the `awaiting_quantity` branch of `handle_message` (bot.py lines
637-742), after the quantity has been parsed: check stock, price and balance,
debit, fetch coupons, and either consume them or refund.  Note that the coupon
`SELECT` at line 687 omits the `fetch` argument, so `coupons_result` is always
`None` and every run ends in the refund arm. -/
def purchase_with_quantity (o : Oracle) (s : St) (uid : Int) (ud : UserData)
    (quantity : Int) : St × UserData × List Reply :=
  if quantity ≤ 0 then (s, ud, [Reply.positiveNumber])
  else
    let coupon_type := ud.selected_coupon
    let stockR := q_read o s fun db => some (count_unused coupon_type db)
    let stock := stockR.1.getD 0
    let s1 := stockR.2
    if (stock : Int) < quantity then
      (s1, { ud with awaiting_quantity := false }, [Reply.notEnoughStock stock])
    else
      let priceR := q_read o s1 fun db => get_price coupon_type db
      let price := priceR.1.getD 0
      let s2 := priceR.2
      let total_price := price * quantity
      let balR := q_read o s2 fun db => get_balance uid db
      let balance := balR.1.getD 0
      let s3 := balR.2
      if balance < total_price then
        (s3, { ud with awaiting_quantity := false },
         [Reply.notEnoughBalance balance total_price])
      else
        let s4 := q_write o s3 (upd_balance uid (-total_price))
        let s5 := q_nofetch o s4
        let coupons_result : Option (List Coupon) := none
        match coupons_result with
        | none =>
            let s6 := q_write o s5 (upd_balance uid total_price)
            (s6, { ud with awaiting_quantity := false }, [Reply.refundNotice])
        | some coupon_rows =>
            if (coupon_rows.length : Int) < quantity then
              let s6 := q_write o s5 (upd_balance uid total_price)
              (s6, { ud with awaiting_quantity := false }, [Reply.refundNotice])
            else
              let order_id := new_id s5.seq
              let s6 := { s5 with seq := s5.seq + 1 }
              let s7 := coupon_rows.foldl
                (fun acc c =>
                  let acc1 := q_write o acc (mark_used uid c.id)
                  q_write o acc1 (insert_order order_id uid c.code price))
                s6
              let coupon_codes := coupon_rows.map (·.code)
              let balR2 := q_read o s7 fun db => get_balance uid db
              let new_balance := balR2.1.getD 0
              let s8 := balR2.2
              (s8, { ud with awaiting_quantity := false, selected_coupon := none },
               [Reply.purchaseSuccess coupon_type quantity total_price new_balance coupon_codes])

/-- The `awaiting_quantity` branch of `handle_message` (bot.py lines 634-749):
`int(text)` raising `ValueError` is answered with the invalid-number prompt and
no state change; otherwise the purchase body runs. -/
def purchase_step (o : Oracle) (s : St) (uid : Int) (ud : UserData) (text : String) :
    St × UserData × List Reply :=
  match py_int text with
  | none => (s, ud, [Reply.invalidNumber])
  | some quantity => purchase_with_quantity o s uid ud quantity

/-- The `awaiting_amount` branch (Amazon deposit amount, lines 752-778). -/
def amazon_amount_step (s : St) (ud : UserData) (text : String) :
    St × UserData × List Reply :=
  match py_int text with
  | none => (s, ud, [Reply.invalidNumber])
  | some amount =>
    if amount < 30 then (s, ud, [Reply.amountTooSmall])
    else
      (s, { ud with payment_amount := some amount, awaiting_amount := false },
       [Reply.orderSummary amount])

/-- The `awaiting_upi_amount` branch (UPI deposit amount, lines 781-822): after
validating the amount it reads the stored QR setting (fetch mode one) and mints
an order number for the payment request. -/
def upi_amount_step (o : Oracle) (s : St) (ud : UserData) (text : String) :
    St × UserData × List Reply :=
  match py_int text with
  | none => (s, ud, [Reply.invalidNumber])
  | some amount =>
    if amount < 30 then (s, ud, [Reply.amountTooSmall])
    else
      let ud1 := { ud with payment_amount := some amount, awaiting_upi_amount := false }
      let (_, s1) := q_read (α := String) o s fun _ => none
      let order_id := new_id s1.seq
      let s2 := { s1 with seq := s1.seq + 1 }
      (s2, { ud1 with order_id := some order_id }, [Reply.upiRequest order_id amount])

/-- The `awaiting_giftcard` branch (lines 825-829). -/
def giftcard_step (s : St) (ud : UserData) (text : String) :
    St × UserData × List Reply :=
  (s, { ud with giftcard_code := some text, awaiting_giftcard := false,
                awaiting_screenshot := true },
   [Reply.askScreenshot])

/-- The `awaiting_payer_name` branch (lines 832-836). -/
def payer_name_step (s : St) (ud : UserData) (text : String) :
    St × UserData × List Reply :=
  (s, { ud with payer_name := some text, awaiting_payer_name := false,
                awaiting_upi_screenshot := true },
   [Reply.askUpiScreenshot])

/-- The insert loop of the `awaiting_coupons` branch (lines 844-853): one
`INSERT` per code; `execute_query` never raises, so the surrounding
`try`/`except` catches nothing and `success_count` is incremented for every
code, whether or not the insert committed. -/
def add_coupons_loop (o : Oracle) (t : Option String) : List String → St → St × Nat
  | [], s => (s, 0)
  | code :: rest, s =>
      let s1 := q_write o s (insert_coupon code t)
      let (s2, n) := add_coupons_loop o t rest s1
      (s2, n + 1)

/-- The `awaiting_coupons` branch (admin bulk insert, lines 839-856): split the
message on newlines, strip each line, drop blank lines, insert each code, and
report the count. -/
def add_coupons_step (o : Oracle) (s : St) (ud : UserData) (text : String) :
    St × UserData × List Reply :=
  let coupon_type := ud.admin_coupon_type
  let coupons := ((text.splitOn "\n").map String.trim).filter fun c => c ≠ ""
  let (s1, success_count) := add_coupons_loop o coupon_type coupons s
  (s1, { ud with awaiting_coupons := false }, [Reply.couponsAdded success_count])

/-- The `awaiting_remove_quantity` branch (admin stock removal, lines 859-884).
The `SELECT id FROM coupons ...` at line 864 omits the `fetch` argument, so
`coupons_result` is always `None`; taking `len` of `None` then raises a
`TypeError`, which the outer handler at line 904 turns into a generic error
reply, leaving both the database and the session untouched. -/
def remove_step (o : Oracle) (s : St) (ud : UserData) (text : String) :
    St × UserData × List Reply :=
  match py_int text with
  | none => (s, ud, [Reply.invalidNumber])
  | some quantity =>
    let s1 := q_nofetch o s
    let coupons_result : Option (List Nat) := none
    match coupons_result with
    | none => (s1, ud, [Reply.genericError])
    | some ids =>
        if (ids.length : Int) < quantity then
          (s1, ud, [Reply.notEnoughCoupons ids.length])
        else
          let s2 := ids.foldl (fun acc i => q_write o acc (delete_coupon i)) s1
          (s2, { ud with awaiting_remove_quantity := false }, [Reply.removedOk quantity])

/-- The `awaiting_price` branch (admin price change, lines 887-902). -/
def price_step (o : Oracle) (s : St) (ud : UserData) (text : String) :
    St × UserData × List Reply :=
  match py_int text with
  | none => (s, ud, [Reply.invalidNumber])
  | some price =>
    let coupon_type := ud.admin_coupon_type
    let s1 := q_write o s (set_price coupon_type price)
    (s1, { ud with awaiting_price := false }, [Reply.priceChanged coupon_type price])

/-- The fixed admin menu tokens recognised at the top of `handle_message`. -/
def admin_options : List String :=
  ["➕ Add Coupon", "➖ Remove Coupon", "📊 Stock", "💰 Change Prices",
   "🔄 Update QR", "📋 Last 10 Buyers", "🔙 Back to User Menu"]

/-- The fixed user menu tokens recognised at the top of `handle_message`. -/
def user_options : List String :=
  ["💰 Add Coins", "🎟️ Buy Coupon", "👤 Balance", "📦 My Orders",
   "🆘 Support", "⚠️ Disclaimer", "👑 Admin Panel"]

/-- `handle_user_menu` (lines 288-360): every branch only replies; none of them
reads or writes `context.user_data`.  The "📦 My Orders" query at line 320 omits
`fetch`, so the result is always `None` and the empty-orders reply is sent. -/
def handle_user_menu (o : Oracle) (admin_id : Int) (s : St) (uid : Int) (ud : UserData)
    (text : String) : St × UserData × List Reply :=
  if text == "💰 Add Coins" then (s, ud, [Reply.paymentMenu])
  else if text == "🎟️ Buy Coupon" then (s, ud, [Reply.termsMenu])
  else if text == "👤 Balance" then
    let (r, s1) := q_read o s fun db => get_balance uid db
    (s1, ud, [Reply.balanceInfo (r.getD 0)])
  else if text == "📦 My Orders" then
    let s1 := q_nofetch o s
    let result : Option (List OrderRow) := none
    match result with
    | some os => (s1, ud, [Reply.ordersInfo os])
    | none => (s1, ud, [Reply.noOrders])
  else if text == "🆘 Support" then (s, ud, [Reply.supportInfo])
  else if text == "⚠️ Disclaimer" then (s, ud, [Reply.disclaimerInfo])
  else if text == "👑 Admin Panel" && uid == admin_id then (s, ud, [Reply.adminPanel])
  else (s, ud, [])

/-- `handle_admin_menu` (lines 362-447): rejected for non-admins; "📊 Stock"
issues four fetch-one count queries; "📋 Last 10 Buyers" omits `fetch` and
so always reports no orders. -/
def handle_admin_menu (o : Oracle) (admin_id : Int) (s : St) (uid : Int) (ud : UserData)
    (text : String) : St × UserData × List Reply :=
  if !(uid == admin_id) then (s, ud, [])
  else if text == "➕ Add Coupon" then
    (s, { ud with admin_action := some "add" }, [Reply.selectTypeToAdd])
  else if text == "➖ Remove Coupon" then
    (s, { ud with admin_action := some "remove" }, [Reply.selectTypeToRemove])
  else if text == "📊 Stock" then
    let (a, s1) := q_read o s fun db => some (count_unused (some "500") db)
    let (b, s2) := q_read o s1 fun db => some (count_unused (some "1K") db)
    let (c, s3) := q_read o s2 fun db => some (count_unused (some "2K") db)
    let (d, s4) := q_read o s3 fun db => some (count_unused (some "4K") db)
    (s4, ud, [Reply.stockInfo (a.getD 0) (b.getD 0) (c.getD 0) (d.getD 0)])
  else if text == "💰 Change Prices" then
    (s, { ud with admin_action := some "price" }, [Reply.selectTypeForPrice])
  else if text == "🔄 Update QR" then
    (s, { ud with awaiting_qr := true }, [Reply.askQr])
  else if text == "📋 Last 10 Buyers" then
    let s1 := q_nofetch o s
    let result : Option (List OrderRow) := none
    match result with
    | some os => (s1, ud, [Reply.lastBuyers os])
    | none => (s1, ud, [Reply.noBuyers])
  else if text == "🔙 Back to User Menu" then (s, ud, [Reply.backToUser])
  else (s, ud, [])

/-- `handle_message` (lines 612-906): fixed admin and user menu tokens are
matched first (before any flow flag), then the `elif` chain over the flow
flags of the session, in source order. -/
def handle_message (o : Oracle) (admin_id : Int) (s : St) (uid : Int) (ud : UserData)
    (text : String) : St × UserData × List Reply :=
  if admin_options.contains text && uid == admin_id then
    handle_admin_menu o admin_id s uid ud text
  else if user_options.contains text then
    handle_user_menu o admin_id s uid ud text
  else if ud.awaiting_quantity then purchase_step o s uid ud text
  else if ud.awaiting_amount then amazon_amount_step s ud text
  else if ud.awaiting_upi_amount then upi_amount_step o s ud text
  else if ud.awaiting_giftcard then giftcard_step s ud text
  else if ud.awaiting_payer_name then payer_name_step s ud text
  else if ud.awaiting_coupons then add_coupons_step o s ud text
  else if ud.awaiting_remove_quantity then remove_step o s ud text
  else if ud.awaiting_price then price_step o s ud text
  else (s, ud, [])

/-- The `approve_` branch of `button_callback` (lines 547-580): fetch the
pending order row by id; if the row exists, credit the claimant balance and
set the status to approved, with no check of the current status of the row.
If the row is missing, nothing at all happens (no reply). -/
def approve_step (o : Oracle) (s : St) (order_id : String) : St × List Reply :=
  let (order_result, s1) := q_read o s fun db =>
    db.pending_orders.find? fun p => p.id == order_id
  match order_result with
  | none => (s1, [])
  | some row =>
      let s2 := q_write o s1 (upd_balance row.user_id row.amount)
      let s3 := q_write o s2 (set_claim_status order_id "approved")
      (s3, [Reply.approvedUser row.user_id row.amount, Reply.approvedOperator])

/-- The `decline_` branch of `button_callback` (lines 582-606): set the status
to declined unconditionally, then fetch the row to notify the claimant;
the operator reply is sent either way. -/
def decline_step (o : Oracle) (s : St) (order_id : String) : St × List Reply :=
  let s1 := q_write o s (set_claim_status order_id "declined")
  let (order_result, s2) := q_read o s1 fun db =>
    (db.pending_orders.find? fun p => p.id == order_id).map (·.user_id)
  match order_result with
  | some uid => (s2, [Reply.declinedUser uid, Reply.declinedOperator])
  | none => (s2, [Reply.declinedOperator])

/-- The failure-free oracle: every store statement commits. -/
def otrue : Oracle := fun _ => true

/-- Happy-purchase scenario store: buyer 7 with balance 2000, five unconsumed
coupons of type "500" priced at 500. -/
def db3 : DB :=
  { users := [⟨7, 2000⟩],
    coupons := [⟨1, "A", "500", false, none⟩, ⟨2, "B", "500", false, none⟩,
                ⟨3, "C", "500", false, none⟩, ⟨4, "D", "500", false, none⟩,
                ⟨5, "E", "500", false, none⟩],
    orders := [], pending_orders := [], prices := [("500", 500)], coupon_seq := 6 }

/-- Session of a buyer who selected coupon type "500" and is being asked for a
quantity. -/
def ud3 : UserData := { awaiting_quantity := true, selected_coupon := some "500" }

/-- Oracle under which the sixth statement of the run (index 5, the
compensating refund `UPDATE` of the purchase path) hits a store error. -/
def o_refund_fails : Oracle := fun k => !(k == 5)

/-- Insufficient-stock scenario store: buyer 7 with balance 1000, a single
unconsumed coupon of type "1K" priced at 1000. -/
def db7 : DB :=
  { users := [⟨7, 1000⟩], coupons := [⟨1, "K1", "1K", false, none⟩],
    orders := [], pending_orders := [], prices := [("1K", 1000)], coupon_seq := 2 }

/-- Session of a buyer who selected coupon type "1K". -/
def ud7 : UserData := { awaiting_quantity := true, selected_coupon := some "1K" }

/-- Quantity-one purchase store: buyer 7 with balance 1000, one unconsumed
coupon of type "1K" priced at 1000. -/
def db6 : DB :=
  { users := [⟨7, 1000⟩], coupons := [⟨1, "KA", "1K", false, none⟩],
    orders := [], pending_orders := [], prices := [("1K", 1000)], coupon_seq := 2 }

/-- Session of a buyer who selected coupon type "1K" for the quantity-one
purchase. -/
def ud6 : UserData := { awaiting_quantity := true, selected_coupon := some "1K" }

/-- Claim-resolution scenario store: claimant 7 with balance 0 and one pending
deposit claim "c1" for amount 100. -/
def db0 : DB :=
  { users := [⟨7, 0⟩], coupons := [], orders := [],
    pending_orders := [⟨"c1", 7, 100, "pending"⟩], prices := [], coupon_seq := 0 }

/-- Oracle under which the third statement of the run (index 2, the claim
status `UPDATE` of the approve path) hits a store error. -/
def o_status_fails : Oracle := fun k => !(k == 2)

/-- Stock-removal scenario store: one unconsumed coupon of type "500". -/
def db8 : DB :=
  { users := [], coupons := [⟨1, "R1", "500", false, none⟩], orders := [],
    pending_orders := [], prices := [("500", 500)], coupon_seq := 2 }

/-- Admin session that selected type "500" for removal and is being asked how
many coupons to remove. -/
def ud8 : UserData := { awaiting_remove_quantity := true, admin_coupon_type := some "500" }

/-- A ledger-touching operation, as invoked by the handlers: a purchase attempt
(the `awaiting_quantity` branch run with the given session fields), a claim
approval, or a claim decline, each with its own failure oracle. -/
inductive LedgerOp where
  | purchase (o : Oracle) (uid : Int) (sel : Option String) (text : String)
  | approve (o : Oracle) (order_id : String)
  | decline (o : Oracle) (order_id : String)

/-- Run one ledger operation against the store state. -/
def apply_op (s : St) : LedgerOp → St
  | .purchase o uid sel text =>
      (purchase_step o s uid { awaiting_quantity := true, selected_coupon := sel } text).1
  | .approve o oid => (approve_step o s oid).1
  | .decline o oid => (decline_step o s oid).1

/-- Run a sequence of ledger operations. -/
def apply_ops (s : St) : List LedgerOp → St
  | [] => s
  | op :: rest => apply_ops (apply_op s op) rest

/-- Ledger sanity: every balance is non-negative, every pending claim amount is
non-negative (the deposit flow only creates claims of amount at least 30),
every listed price is non-negative (the defaults seeded by `init_database` are
positive), and `user_id` is unique across the `users` table (its `UNIQUE`
constraint). -/
def BalInv (db : DB) : Prop :=
  (∀ u ∈ db.users, 0 ≤ u.balance) ∧
  (∀ p ∈ db.pending_orders, 0 ≤ p.amount) ∧
  (∀ pr ∈ db.prices, 0 ≤ pr.2) ∧
  db.users.Pairwise (fun a b => a.user_id ≠ b.user_id)

/-- Concrete operation sequence used to exercise the balance invariant:
a purchase attempt, an approval and a decline against `db0`. -/
def ops5 : List LedgerOp :=
  [.purchase otrue 7 (some "500") "3", .approve otrue "c1", .decline otrue "c1"]

theorem add_coupons_loop_count (o : Oracle) (t : Option String) :
    ∀ (cs : List String) (s : St), (add_coupons_loop o t cs s).2 = cs.length := by
  intro cs
  induction cs with
  | nil => intro s; rfl
  | cons c rest ih =>
      intro s
      simp [add_coupons_loop, ih]

/-- C10: for every operator bulk coupon insert, the count reported back equals
the number of non-blank input lines, for every failure oracle and store state —
in particular a line whose insert fails (duplicate code, store error) is still
counted as added. -/
theorem C10_bulk_insert_reports_line_count (o : Oracle) (s : St) (ud : UserData)
    (text : String) :
    (add_coupons_step o s ud text).2.2 =
      [Reply.couponsAdded ((text.splitOn "\n").countP fun c => c.trim ≠ "")] := by
  unfold add_coupons_step
  simp only [add_coupons_loop_count]
  rw [← List.countP_eq_length_filter, List.countP_map]
  rfl

/-- C1: counter-evidence for debit-allocate atomicity.  With five "500" coupons
in stock at price 500 and buyer balance 2000, a quantity-3 purchase whose
compensating refund statement hits a store error completes as a failure
(refund notice), yet the balance has dropped from 2000 to 500, with no coupon
consumed and no order recorded: the buyer lost the debit. -/
theorem C1_refund_failure_loses_debit :
    (handle_message o_refund_fails 99 ⟨db3, 0, 0⟩ 7 ud3 "3").2.2 = [Reply.refundNotice] ∧
    get_balance 7 (handle_message o_refund_fails 99 ⟨db3, 0, 0⟩ 7 ud3 "3").1.db = some 500 ∧
    (handle_message o_refund_fails 99 ⟨db3, 0, 0⟩ 7 ud3 "3").1.db.orders = [] ∧
    ((handle_message o_refund_fails 99 ⟨db3, 0, 0⟩ 7 ud3 "3").1.db.coupons.filter
      (·.is_used)) = [] := by
  decide

/-- C2: counter-evidence for claim terminality.  Approving claim "c1" (amount
100, claimant 7 starting at balance 0) twice under a failure-free store credits
the balance both times: after the second approve the balance is 200 and the
second call still reports success, instead of failing as already resolved. -/
theorem C2_repeat_approve_credits_again :
    get_balance 7 (approve_step otrue (approve_step otrue ⟨db0, 0, 0⟩ "c1").1 "c1").1.db
      = some 200 ∧
    (approve_step otrue (approve_step otrue ⟨db0, 0, 0⟩ "c1").1 "c1").2
      = [Reply.approvedUser 7 100, Reply.approvedOperator] := by
  decide

/-- C3: counter-evidence for the happy-purchase scenario.  With five "500"
coupons at price 500 and balance 2000, the quantity-3 purchase under a
failure-free store does not succeed: the coupon `SELECT` is issued without a
`fetch` argument and returns `None`, so the code refunds the debit and reports
failure — balance back at 2000, no coupon consumed, no order row, no receipt. -/
theorem C3_happy_purchase_never_succeeds :
    (handle_message otrue 99 ⟨db3, 0, 0⟩ 7 ud3 "3").2.2 = [Reply.refundNotice] ∧
    get_balance 7 (handle_message otrue 99 ⟨db3, 0, 0⟩ 7 ud3 "3").1.db = some 2000 ∧
    (handle_message otrue 99 ⟨db3, 0, 0⟩ 7 ud3 "3").1.db.orders = [] ∧
    ((handle_message otrue 99 ⟨db3, 0, 0⟩ 7 ud3 "3").1.db.coupons.filter (·.is_used))
      = [] := by
  decide

/-- C6: counter-evidence for order recording.  A quantity-1 purchase with ample
stock and exact balance records no Order row at all: the purchase aborts at the
always-`None` coupon fetch and refunds, so the orders table stays empty and the
call reports failure. -/
theorem C6_no_order_rows_recorded :
    (handle_message otrue 99 ⟨db6, 0, 0⟩ 7 ud6 "1").2.2 = [Reply.refundNotice] ∧
    (handle_message otrue 99 ⟨db6, 0, 0⟩ 7 ud6 "1").1.db.orders = [] ∧
    get_balance 7 (handle_message otrue 99 ⟨db6, 0, 0⟩ 7 ud6 "1").1.db = some 1000 := by
  decide

/-- C7: with one unconsumed "1K" coupon in stock, a quantity-2 purchase fails
with the insufficient-stock report, the whole store is unchanged (in
particular the balance), and the coupon remains unconsumed. -/
theorem C7_insufficient_stock_aborts_cleanly :
    (handle_message otrue 99 ⟨db7, 0, 0⟩ 7 ud7 "2").2.2 = [Reply.notEnoughStock 1] ∧
    (handle_message otrue 99 ⟨db7, 0, 0⟩ 7 ud7 "2").1.db = db7 ∧
    get_balance 7 (handle_message otrue 99 ⟨db7, 0, 0⟩ 7 ud7 "2").1.db = some 1000 ∧
    ((handle_message otrue 99 ⟨db7, 0, 0⟩ 7 ud7 "2").1.db.coupons.filter (·.is_used))
      = [] := by
  decide

/-- C8: counter-evidence for stock removal.  With one unconsumed "500" coupon
in stock and a removal request of one, the handler deletes nothing and replies
with a generic error: the id `SELECT` is issued without a `fetch` argument and
returns `None`, and taking its length raises an error caught by the outer
handler.  The store is unchanged. -/
theorem C8_remove_stock_never_deletes :
    (handle_message otrue 99 ⟨db8, 0, 0⟩ 99 ud8 "1").2.2 = [Reply.genericError] ∧
    (handle_message otrue 99 ⟨db8, 0, 0⟩ 99 ud8 "1").1.db = db8 := by
  decide

/-- C9: the approve path issues the balance credit and the status update as two
separate store statements, credit first.  Under an oracle failing exactly the
status update, claim "c1" stays pending while claimant 7 is already credited
100; a later failure-free approve of the same claim then credits again,
reaching balance 200. -/
theorem C9_credit_first_non_atomic :
    get_balance 7 (approve_step o_status_fails ⟨db0, 0, 0⟩ "c1").1.db = some 100 ∧
    ((approve_step o_status_fails ⟨db0, 0, 0⟩ "c1").1.db.pending_orders.find?
      (fun p => p.id == "c1")).map (·.status) = some "pending" ∧
    get_balance 7
      (approve_step otrue (approve_step o_status_fails ⟨db0, 0, 0⟩ "c1").1 "c1").1.db
      = some 200 := by
  decide

/-- C4 counterexample: with a purchase flow mid-progress (quantity awaited,
coupon type "500" selected), sending the fixed menu token "💰 Add Coins" does
not clear the old flow: afterwards the session still has the quantity flag set
and the selected coupon type present, contradicting the claimed reset. -/
theorem C4_menu_token_does_not_clear_flow :
    (handle_message otrue 99 ⟨db3, 0, 0⟩ 7 ud3 "💰 Add Coins").2.1.awaiting_quantity
      = true ∧
    (handle_message otrue 99 ⟨db3, 0, 0⟩ 7 ud3 "💰 Add Coins").2.1.selected_coupon
      = some "500" := by
  decide

/-- C4 (amended): receiving a fixed user-menu token — whether or not another
flow is mid-progress — leaves the session untouched: `handle_message` routes it
to `handle_user_menu` before consulting any flow flag, and `handle_user_menu`
never reads or writes the session, so the old flow tag and accumulated fields
all survive unchanged. -/
theorem C4_menu_token_preserves_session (o : Oracle) (admin_id : Int) (s : St) (uid : Int)
    (ud : UserData) (text : String) (h : text ∈ user_options) :
    (handle_message o admin_id s uid ud text).2.1 = ud := by
  fin_cases h <;>
    simp [handle_message, handle_user_menu, admin_options, user_options, q_read,
      q_nofetch]
  split <;> rfl

/-- C4 witness: the amended statement at the concrete mid-purchase session. -/
theorem C4_menu_token_preserves_session_witness :
    ("💰 Add Coins" ∈ user_options) ∧
    (handle_message otrue 99 ⟨db3, 0, 0⟩ 7 ud3 "💰 Add Coins").2.1 = ud3 :=
  ⟨by decide, C4_menu_token_preserves_session otrue 99 ⟨db3, 0, 0⟩ 7 ud3 "💰 Add Coins"
    (by decide)⟩

theorem users_nonneg_add (l : List UserRow) (uid d : Int)
    (h : ∀ u ∈ l, 0 ≤ u.balance) (hd : 0 ≤ d) :
    ∀ u ∈ l.map (fun u =>
      if u.user_id = uid then { u with balance := u.balance + d } else u),
      0 ≤ u.balance := by
  intro u hu
  obtain ⟨u0, h0, rfl⟩ := List.mem_map.1 hu
  by_cases hc : u0.user_id = uid
  · simpa [hc] using add_nonneg (h u0 h0) hd
  · simpa [hc] using h u0 h0

theorem users_nonneg_debit (uid t : Int) :
    ∀ (l : List UserRow) (r : UserRow),
      (∀ u ∈ l, 0 ≤ u.balance) →
      l.Pairwise (fun a b => a.user_id ≠ b.user_id) →
      (l.find? fun u => u.user_id == uid) = some r →
      t ≤ r.balance →
      ∀ u ∈ l.map (fun u =>
        if u.user_id = uid then { u with balance := u.balance + -t } else u),
        0 ≤ u.balance := by
  intro l
  induction l with
  | nil => intro r _ _ hf; simp [List.find?] at hf
  | cons hd tl ih =>
      intro r h hp hf ht u hu
      obtain ⟨u0, h0, rfl⟩ := List.mem_map.1 hu
      by_cases hc : hd.user_id == uid
      · simp only [List.find?, hc] at hf
        injection hf with hf
        subst hf
        have hc' : hd.user_id = uid := eq_of_beq hc
        rcases List.mem_cons.1 h0 with h0 | h0
        · subst h0
          simp only [if_pos hc']
          linarith
        · have hne : hd.user_id ≠ u0.user_id := (List.pairwise_cons.1 hp).1 u0 h0
          have : ¬ u0.user_id = uid := fun hu0 => hne (by rw [hc', hu0])
          simpa [this] using h u0 (List.mem_cons_of_mem _ h0)
      · rw [Bool.not_eq_true] at hc
        simp only [List.find?, hc] at hf
        have hc' : ¬ hd.user_id = uid := fun he => by simp [he] at hc
        rcases List.mem_cons.1 h0 with h0 | h0
        · subst h0
          simpa [hc'] using h u0 (List.mem_cons_self _ _)
        · exact ih r (fun v hv => h v (List.mem_cons_of_mem _ hv))
            (List.pairwise_cons.1 hp).2 hf ht _ (List.mem_map.2 ⟨u0, h0, rfl⟩)

theorem upd_user_id (uid d : Int) (u : UserRow) :
    ((if u.user_id = uid then { u with balance := u.balance + d } else u) : UserRow).user_id
      = u.user_id := by
  split <;> rfl

theorem BalInv_upd_credit {db : DB} {uid d : Int} (h : BalInv db) (hd : 0 ≤ d) :
    BalInv (upd_balance uid d db) := by
  obtain ⟨h1, h2, h3, h4⟩ := h
  unfold upd_balance
  refine ⟨users_nonneg_add _ _ _ h1 hd, h2, h3, ?_⟩
  dsimp only
  rw [List.pairwise_map]
  exact h4.imp fun hab => by simpa [upd_user_id] using hab

theorem BalInv_upd_debit {db : DB} {uid t b : Int} (h : BalInv db)
    (hb : get_balance uid db = some b) (ht : t ≤ b) :
    BalInv (upd_balance uid (-t) db) := by
  obtain ⟨h1, h2, h3, h4⟩ := h
  unfold get_balance at hb
  rcases Option.map_eq_some'.1 hb with ⟨r, hr, hrb⟩
  unfold upd_balance
  refine ⟨users_nonneg_debit uid t db.users r h1 h4 hr (hrb ▸ ht), h2, h3, ?_⟩
  dsimp only
  rw [List.pairwise_map]
  exact h4.imp fun hab => by simpa [upd_user_id] using hab

theorem BalInv_q_write {o : Oracle} {s : St} {eff : DB → DB} (h : BalInv s.db)
    (heff : BalInv (eff s.db)) : BalInv (q_write o s eff).db := by
  unfold q_write
  dsimp only
  split
  · exact heff
  · exact h

theorem BalInv_set_status (oid status : String) {db : DB} (h : BalInv db) :
    BalInv (set_claim_status oid status db) := by
  obtain ⟨h1, h2, h3, h4⟩ := h
  refine ⟨h1, ?_, h3, h4⟩
  intro p hp
  obtain ⟨p0, hp0, rfl⟩ := List.mem_map.1 hp
  split <;> exact h2 p0 hp0

theorem get_price_nonneg {db : DB} (t : Option String)
    (h3 : ∀ pr ∈ db.prices, 0 ≤ pr.2) : 0 ≤ (get_price t db).getD 0 := by
  unfold get_price
  cases hf : db.prices.find? (fun p => some p.1 == t) with
  | none => simp
  | some pr => simpa using h3 pr (List.mem_of_find?_eq_some hf)

theorem BalInv_approve_step (o : Oracle) (s : St) (oid : String) (h : BalInv s.db) :
    BalInv (approve_step o s oid).1.db := by
  unfold approve_step
  simp only [q_read]
  cases hor : (if o s.k then s.db.pending_orders.find? fun p => p.id == oid else none) with
  | none => exact h
  | some row =>
      have hrow : row ∈ s.db.pending_orders := by
        rcases ite_eq_iff.1 hor with ⟨_, hsome⟩ | ⟨_, hnone⟩
        · exact List.mem_of_find?_eq_some hsome
        · cases hnone
      have hamt : 0 ≤ row.amount := h.2.1 row hrow
      have hcredit : BalInv (q_write o { s with k := s.k + 1 }
          (upd_balance row.user_id row.amount)).db :=
        BalInv_q_write h (BalInv_upd_credit h hamt)
      exact BalInv_q_write hcredit (BalInv_set_status _ _ hcredit)

theorem BalInv_decline_step (o : Oracle) (s : St) (oid : String) (h : BalInv s.db) :
    BalInv (decline_step o s oid).1.db := by
  unfold decline_step
  simp only [q_read]
  have h1 : BalInv (q_write o s (set_claim_status oid "declined")).db :=
    BalInv_q_write h (BalInv_set_status _ _ h)
  cases (if o (q_write o s (set_claim_status oid "declined")).k then
      ((q_write o s (set_claim_status oid "declined")).db.pending_orders.find? fun p =>
        p.id == oid).map (·.user_id)
    else none) with
  | none => exact h1
  | some uid => exact h1

theorem BalInv_debit_refund (c1 c2 : Prop) [Decidable c1] [Decidable c2] {db : DB}
    {uid T : Int} (h : BalInv db) (hT : 0 ≤ T)
    (hdeb : BalInv (upd_balance uid (-T) db)) :
    BalInv (if c2 then upd_balance uid T (if c1 then upd_balance uid (-T) db else db)
            else (if c1 then upd_balance uid (-T) db else db)) := by
  have hD : BalInv (if c1 then upd_balance uid (-T) db else db) := by
    split
    · exact hdeb
    · exact h
  split
  · exact BalInv_upd_credit hD hT
  · exact hD

theorem BalInv_purchase_with_quantity (o : Oracle) (s : St) (uid : Int) (ud : UserData)
    (quantity : Int) (h : BalInv s.db) :
    BalInv (purchase_with_quantity o s uid ud quantity).1.db := by
  unfold purchase_with_quantity
  by_cases hq : quantity ≤ 0
  · rw [if_pos hq]; exact h
  rw [if_neg hq]
  have hqpos : 0 < quantity := not_le.1 hq
  simp only [q_read, q_write, q_nofetch]
  by_cases hstock :
      ((((if o s.k = true then some (count_unused ud.selected_coupon s.db) else none).getD 0 :
        Nat) : Int) < quantity)
  · rw [if_pos hstock]; exact h
  rw [if_neg hstock]
  by_cases hbal :
      ((if o (s.k + 1 + 1) = true then get_balance uid s.db else none).getD 0 <
        (if o (s.k + 1) = true then get_price ud.selected_coupon s.db else none).getD 0 *
          quantity)
  · rw [if_pos hbal]; exact h
  rw [if_neg hbal]
  have hP : 0 ≤ (if o (s.k + 1) = true then get_price ud.selected_coupon s.db
      else none).getD 0 := by
    split
    · exact get_price_nonneg _ h.2.2.1
    · simp
  have hT : 0 ≤ (if o (s.k + 1) = true then get_price ud.selected_coupon s.db
      else none).getD 0 * quantity := mul_nonneg hP (le_of_lt hqpos)
  have hB0 : (if o (s.k + 1) = true then get_price ud.selected_coupon s.db
        else none).getD 0 * quantity ≤
      (if o (s.k + 1 + 1) = true then get_balance uid s.db else none).getD 0 :=
    not_lt.1 hbal
  have hdeb : BalInv (upd_balance uid
      (-((if o (s.k + 1) = true then get_price ud.selected_coupon s.db
        else none).getD 0 * quantity)) s.db) := by
    rcases hco : (if o (s.k + 1 + 1) = true then get_balance uid s.db else none) with _ | b
    · rw [hco] at hB0
      simp only [Option.getD_none] at hB0
      exact BalInv_upd_credit h (by linarith)
    · rw [hco] at hB0
      simp only [Option.getD_some] at hB0
      have hgb : get_balance uid s.db = some b := by
        rcases ite_eq_iff.1 hco with ⟨_, hx⟩ | ⟨_, hx⟩
        · exact hx
        · cases hx
      exact BalInv_upd_debit h hgb hB0
  exact BalInv_debit_refund _ _ h hT hdeb

theorem BalInv_purchase_step (o : Oracle) (s : St) (uid : Int) (ud : UserData)
    (text : String) (h : BalInv s.db) : BalInv (purchase_step o s uid ud text).1.db := by
  unfold purchase_step
  cases py_int text with
  | none => exact h
  | some quantity => exact BalInv_purchase_with_quantity o s uid ud quantity h

theorem BalInv_apply_op (s : St) (op : LedgerOp) (h : BalInv s.db) :
    BalInv (apply_op s op).db := by
  cases op with
  | purchase o uid sel text => exact BalInv_purchase_step o s uid _ text h
  | approve o oid => exact BalInv_approve_step o s oid h
  | decline o oid => exact BalInv_decline_step o s oid h

theorem BalInv_apply_ops (ops : List LedgerOp) :
    ∀ (s : St), BalInv s.db → BalInv (apply_ops s ops).db := by
  induction ops with
  | nil => intro s h; exact h
  | cons op rest ih => intro s h; exact ih _ (BalInv_apply_op s op h)

/-- C5: starting from a sane ledger (non-negative balances, non-negative claim
amounts, non-negative prices, unique user ids), after any sequence of ledger
operations — purchase attempts with their allocation-failure refunds, claim
approvals, claim declines, each under an arbitrary store-failure oracle — every
account balance is still non-negative; the one balance-decreasing write, the
purchase debit, only runs when the freshly read balance covers the total. -/
theorem C5_balances_stay_nonneg (s : St) (ops : List LedgerOp) (h : BalInv s.db) :
    ∀ u ∈ (apply_ops s ops).db.users, 0 ≤ u.balance :=
  (BalInv_apply_ops ops s h).1

/-- C5 witness: the invariant holds concretely for a purchase attempt, an
approval and a decline run against the claim-scenario store. -/
theorem C5_balances_stay_nonneg_witness :
    BalInv (⟨db0, 0, 0⟩ : St).db ∧
      ∀ u ∈ (apply_ops ⟨db0, 0, 0⟩ ops5).db.users, 0 ≤ u.balance :=
  ⟨by unfold BalInv; decide, C5_balances_stay_nonneg ⟨db0, 0, 0⟩ ops5 (by unfold BalInv; decide)⟩
